import Mathlib

/-!
Verification development for the swipe/match engine of the job-matching
backend (`app/controllers/swipe.py`, `app/db.py`, `app/routes/swipe.py`).

The MongoDB collection is modelled as a list of free-form documents: a
document is an `_id` (a counter-generated surrogate for the ObjectId that
`insert_one` creates) together with an association list of named BSON
values.  Queries are equality conditions on named fields, exactly as the
Python code writes them; a document that lacks a queried field does not
satisfy an equality condition on it, matching MongoDB semantics.
-/

namespace FastapiServer

/-- BSON values that occur in the swipe collection: strings, ObjectIds
(carrying their 24-hex-digit representation), booleans and timestamps. -/
inductive BVal where
  | str (s : String)
  | oid (s : String)
  | boolean (b : Bool)
  | time (t : Nat)
deriving DecidableEq

/-- A MongoDB document: generated `_id` plus named fields. -/
structure Doc where
  docId : Nat
  fields : List (String × BVal)
deriving DecidableEq

/-- Field lookup; `none` when the document lacks the field. -/
def Doc.getField (d : Doc) (k : String) : Option BVal :=
  (d.fields.find? (fun p => p.1 == k)).map (fun p => p.2)

/-- `$set` on an association list: replace the first binding of `k`, or
append one if absent (MongoDB `$set` creates missing fields). -/
def setKey : List (String × BVal) → String → BVal → List (String × BVal)
  | [], k, v => [(k, v)]
  | (k1, v1) :: rest, k, v =>
      if k1 == k then (k, v) :: rest else (k1, v1) :: setKey rest k v

def Doc.setField (d : Doc) (k : String) (v : BVal) : Doc :=
  ⟨d.docId, setKey d.fields k v⟩

/-- A conjunction of equality conditions `{k1: v1, k2: v2, ...}`. -/
def condsHold (cs : List (String × BVal)) (d : Doc) : Bool :=
  cs.all (fun c => d.getField c.1 == some c.2)

/-- The swipe collection: documents plus the `_id` generator. -/
structure DB where
  docs : List Doc
  nextId : Nat
deriving DecidableEq

def emptyDB : DB := ⟨[], 0⟩

/-- Errors raised by the storage layer inside `create_swipe`:
`invalidId` is bson's `InvalidId` from `ObjectId(target_id)`, and
`duplicateKey` is pymongo's `DuplicateKeyError` from the unique index. -/
inductive StorageError where
  | duplicateKey
  | invalidId
deriving DecidableEq

/-- `bson.ObjectId` accepts exactly 24-hex-digit strings. -/
def isHexChar (c : Char) : Bool :=
  c.isDigit || decide (97 ≤ c.toNat ∧ c.toNat ≤ 102) ||
    decide (65 ≤ c.toNat ∧ c.toNat ≤ 70)

def isValidOid (s : String) : Bool :=
  s.length == 24 && s.toList.all isHexChar

/-- `ObjectId(target_id)` — raises `InvalidId` on malformed input. -/
def objectId? (s : String) : Except StorageError String :=
  if isValidOid s then .ok s else .error .invalidId

/-- The compound key of the unique index from `MongoDB._init_swipes`:
`IndexModel([("user_id", ASCENDING), ("job_id", ASCENDING)], unique=True)`.
A missing field indexes as null, so it is represented by `none`. -/
def swipeKey (d : Doc) : Option BVal × Option BVal :=
  (d.getField "user_id", d.getField "job_id")

/-- `collection.insert_one`: rejected by the unique `(user_id, job_id)`
index when a document with the same key pair already exists; otherwise
appends the document with a fresh `_id`. -/
def insert_one (σ : DB) (fs : List (String × BVal)) :
    Except StorageError (Nat × DB) :=
  if σ.docs.any (fun e => swipeKey e == swipeKey ⟨σ.nextId, fs⟩) then
    .error .duplicateKey
  else .ok (σ.nextId, ⟨σ.docs ++ [⟨σ.nextId, fs⟩], σ.nextId + 1⟩)

/-- `collection.find_one(filter)`: first document satisfying the filter. -/
def find_one (p : Doc → Bool) (σ : DB) : Option Doc :=
  σ.docs.find? p

/-- `collection.update_many(filter, {"$set": {"matched": True}})`. -/
def update_many_set_matched (p : Doc → Bool) (σ : DB) : DB :=
  ⟨σ.docs.map (fun d => if p d then d.setField "matched" (.boolean true) else d),
   σ.nextId⟩

/-- Remove the first document satisfying the predicate
(`collection.delete_one` deletes at most one document). -/
def eraseFirstP (p : Doc → Bool) : List Doc → List Doc
  | [] => []
  | d :: rest => if p d then rest else d :: eraseFirstP p rest

/-- `collection.delete_one(filter)`: whether a document was deleted
(`deleted_count > 0`), and the resulting collection. -/
def delete_one (p : Doc → Bool) (σ : DB) : Bool × DB :=
  (σ.docs.any p, ⟨eraseFirstP p σ.docs, σ.nextId⟩)

/-- Mongo's `cursor.limit`: `limit(0)` means no limit. -/
def applyLimit (limit : Nat) (l : List Doc) : List Doc :=
  if limit == 0 then l else l.take limit

/-- Storage operations performed by a call, in order; used to state which
storage accesses a code path makes. -/
inductive Op where
  | insertOp (fs : List (String × BVal))
  | findOp
  | updateOp
deriving DecidableEq

/-- The dict returned by `create_swipe` / `check_match`:
`{"status": "match", "match_id": ...}`, `{"status": "like_recorded"}` or
`{"status": "swipe_recorded"}`. -/
inductive SwipeResult where
  | matchFound (matchId : String)
  | likeRecorded
  | swipeRecorded
deriving DecidableEq

/-- The filter of `check_match`'s mirror lookup:
`{"swiper_id": user2_id, "target_id": user1_id, "swipe_type": "like"}`. -/
def mirrorFilter (user1 user2 : String) (d : Doc) : Bool :=
  condsHold [("swiper_id", .str user2), ("target_id", .str user1),
             ("swipe_type", .str "like")] d

/-- The `$or` filter of `check_match`'s `update_many`: either direction of
the pair, keyed on `swiper_id`/`target_id`. -/
def pairOrFilter (user1 user2 : String) (d : Doc) : Bool :=
  condsHold [("swiper_id", .str user1), ("target_id", .str user2)] d ||
  condsHold [("swiper_id", .str user2), ("target_id", .str user1)] d

/-- `SwipeCRUD.check_match`: look for the mirror like; if present, set
`matched` on both directions via one `update_many` and report the match
with the mirror's id. Also returns the storage operations performed. -/
def check_match (user1 user2 : String) (σ : DB) :
    SwipeResult × DB × List Op :=
  match find_one (mirrorFilter user1 user2) σ with
  | some mutualSwipe =>
      (.matchFound (toString mutualSwipe.docId),
       update_many_set_matched (pairOrFilter user1 user2) σ,
       [.findOp, .updateOp])
  | none => (.likeRecorded, σ, [.findOp])

/-- The document `create_swipe` inserts: note the field names `user_id` and
`job_id` ("matches Mongo index"), with `matched` initially `False`. -/
def swipeFields (swiper target ty : String) (now : Nat) :
    List (String × BVal) :=
  [("user_id", .str swiper), ("job_id", .oid target),
   ("swipe_type", .str ty), ("swiped_at", .time now),
   ("matched", .boolean false)]

/-- `SwipeCRUD.create_swipe`: convert `target_id` to an ObjectId (may
raise), insert the swipe document, then run `check_match` only when the
swipe type is `"like"`. Errors propagate before any further effect; the
result carries the final collection state and the storage-operation
trace. -/
def create_swipe (swiper target ty : String) (now : Nat) (σ : DB) :
    Except StorageError (SwipeResult × DB × List Op) :=
  match objectId? target with
  | .error e => .error e
  | .ok _ =>
    match insert_one σ (swipeFields swiper target ty now) with
    | .error e => .error e
    | .ok (_, σ1) =>
      if ty == "like" then
        let r := check_match swiper target σ1
        .ok (r.1, r.2.1, .insertOp (swipeFields swiper target ty now) :: r.2.2)
      else
        .ok (.swipeRecorded, σ1, [.insertOp (swipeFields swiper target ty now)])

/-- An entry of the list returned by `get_user_matches`:
`{"match_id": str(_id), "users": [swiper_id, target_id], "matched_at": swiped_at}`. -/
structure MatchEntry where
  matchId : String
  users : List (Option BVal)
  matchedAt : Option BVal
deriving DecidableEq

/-- The find filter of `get_user_matches`:
`{"$or": [{"swiper_id": u}, {"target_id": u}], "matched": True}`. -/
def gumFilter (u : String) (d : Doc) : Bool :=
  (condsHold [("swiper_id", .str u)] d || condsHold [("target_id", .str u)] d) &&
  condsHold [("matched", .boolean true)] d

/-- `SwipeCRUD.get_user_matches`: fetch matched documents mentioning the
user, then keep only those whose `swiper_id` equals the queried user
("Only return once per match").  In the Python comprehension the
`match["swiper_id"]` access presupposes the field; every document the
theorems below feed through here carries it. -/
def get_user_matches (u : String) (limit skip : Nat) (σ : DB) :
    List MatchEntry :=
  let ms := applyLimit limit ((σ.docs.filter (gumFilter u)).drop skip)
  (ms.filter (fun d => d.getField "swiper_id" == some (.str u))).map
    (fun d => ⟨toString d.docId,
               [d.getField "swiper_id", d.getField "target_id"],
               d.getField "swiped_at"⟩)

/-- The filter of `delete_match`'s `delete_one`:
`{"_id": ObjectId(match_id), "$or": [{"swiper_id": u}, {"target_id": u}], "matched": True}`. -/
def deleteFilter (u : String) (matchId : Nat) (d : Doc) : Bool :=
  d.docId == matchId &&
  (condsHold [("swiper_id", .str u)] d || condsHold [("target_id", .str u)] d) &&
  condsHold [("matched", .boolean true)] d

/-- `SwipeCRUD.delete_match`: `delete_one` under the authorization filter;
returns `deleted_count > 0`.  `match_id` is a `PyObjectId`, i.e. already a
valid ObjectId, modelled by the surrogate id directly. -/
def delete_match (u : String) (matchId : Nat) (σ : DB) : Bool × DB :=
  delete_one (deleteFilter u matchId) σ

/-- One `create_swipe` request: the query parameters of `POST /swipe/`. -/
structure Call where
  swiper : String
  target : String
  ty : String
deriving DecidableEq

/-- The collection state after a call: an error leaves the collection as
it was (the only state change, the insert, happens on the success path). -/
def stateAfter (r : Except StorageError (SwipeResult × DB × List Op))
    (σ : DB) : DB :=
  match r with
  | .ok out => out.2.1
  | .error _ => σ

/-- Run a sequence of `create_swipe` requests; the id counter doubles as
the clock for `swiped_at` (timestamps influence nothing). -/
def runCalls (σ : DB) : List Call → DB
  | [] => σ
  | c :: rest =>
      runCalls (stateAfter (create_swipe c.swiper c.target c.ty σ.nextId σ) σ) rest

/-- The result dict of a `create_swipe` call, when it did not raise. -/
def resultOf (r : Except StorageError (SwipeResult × DB × List Op)) :
    Option SwipeResult :=
  match r with
  | .ok out => some out.1
  | .error _ => none

/-! ## Basic facts about inserted documents and the collection invariant -/

/-- Two distinct users whose ids parse as ObjectIds (both directions of a
user-to-user swipe must survive `ObjectId(target_id)`). -/
def A24 : String := "aaaaaaaaaaaaaaaaaaaaaaaa"

def B24 : String := "bbbbbbbbbbbbbbbbbbbbbbbb"

theorem getField_swipeFields_swiper_id (i now : Nat) (s t ty : String) :
    (Doc.mk i (swipeFields s t ty now)).getField "swiper_id" = none := rfl

theorem getField_swipeFields_matched (i now : Nat) (s t ty : String) :
    (Doc.mk i (swipeFields s t ty now)).getField "matched" =
      some (.boolean false) := rfl

theorem swipeKey_swipeFields (i now : Nat) (s t ty : String) :
    swipeKey ⟨i, swipeFields s t ty now⟩ = (some (.str s), some (.oid t)) := rfl

/-- Every document in the collection lacks a `swiper_id` field (true of all
documents `create_swipe` writes, which use `user_id`/`job_id`). -/
def noSwiperField (σ : DB) : Prop :=
  ∀ d ∈ σ.docs, d.getField "swiper_id" = none

/-- Every document in the collection has `matched = False`. -/
def allUnmatched (σ : DB) : Prop :=
  ∀ d ∈ σ.docs, d.getField "matched" = some (.boolean false)

theorem noSwiperField_empty : noSwiperField emptyDB := by
  intro d hd
  simp [emptyDB] at hd

theorem allUnmatched_empty : allUnmatched emptyDB := by
  intro d hd
  simp [emptyDB] at hd

theorem mirrorFilter_eq_false {d : Doc} (h : d.getField "swiper_id" = none)
    (u1 u2 : String) : mirrorFilter u1 u2 d = false := by
  simp [mirrorFilter, condsHold, h]

theorem find_one_mirror_none {σ : DB} (h : noSwiperField σ) (u1 u2 : String) :
    find_one (mirrorFilter u1 u2) σ = none := by
  apply List.find?_eq_none.mpr
  intro d hd
  simp [mirrorFilter_eq_false (h d hd)]

/-- On any collection whose documents lack `swiper_id` — i.e. on every
collection this backend ever builds — the mirror lookup of `check_match`
finds nothing, so `check_match` reports `like_recorded`, updates nothing,
and performs a single find. -/
theorem check_match_no_swiper {σ : DB} (h : noSwiperField σ) (u1 u2 : String) :
    check_match u1 u2 σ = (.likeRecorded, σ, [.findOp]) := by
  unfold check_match
  rw [find_one_mirror_none h]

theorem insert_one_ok {σ σ1 : DB} {fs : List (String × BVal)} {i : Nat}
    (h : insert_one σ fs = .ok (i, σ1)) :
    σ1.docs = σ.docs ++ [⟨σ.nextId, fs⟩] ∧ i = σ.nextId ∧
      σ1.nextId = σ.nextId + 1 ∧
      σ.docs.any (fun e => swipeKey e == swipeKey ⟨σ.nextId, fs⟩) = false := by
  unfold insert_one at h
  by_cases hc : σ.docs.any (fun e => swipeKey e == swipeKey ⟨σ.nextId, fs⟩) = true
  · rw [if_pos hc] at h
    cases h
  · rw [if_neg hc] at h
    obtain ⟨h1, h2⟩ := Prod.mk.injEq .. ▸ (Except.ok.inj h)
    exact ⟨h2 ▸ rfl, h1.symm, h2 ▸ rfl, Bool.eq_false_iff.mpr hc⟩

/-- Inserting a swipe document preserves both collection invariants: the
new document uses `user_id`/`job_id` (no `swiper_id`) and is created with
`matched = False`. -/
theorem insert_preserves {σ σ1 : DB} {i now : Nat} {s t ty : String}
    (h : insert_one σ (swipeFields s t ty now) = .ok (i, σ1))
    (h1 : noSwiperField σ) (h2 : allUnmatched σ) :
    noSwiperField σ1 ∧ allUnmatched σ1 := by
  obtain ⟨hdocs, -, -, -⟩ := insert_one_ok h
  constructor
  · intro d hd
    rw [hdocs] at hd
    rcases List.mem_append.mp hd with hd | hd
    · exact h1 d hd
    · rw [List.mem_singleton.mp hd]
      rfl
  · intro d hd
    rw [hdocs] at hd
    rcases List.mem_append.mp hd with hd | hd
    · exact h2 d hd
    · rw [List.mem_singleton.mp hd]
      rfl

theorem create_swipe_stateAfter {σ : DB} (s t ty : String) (now : Nat)
    (h1 : noSwiperField σ) (h2 : allUnmatched σ) :
    noSwiperField (stateAfter (create_swipe s t ty now σ) σ) ∧
      allUnmatched (stateAfter (create_swipe s t ty now σ) σ) := by
  unfold create_swipe
  cases hv : objectId? t with
  | error e => exact ⟨h1, h2⟩
  | ok o =>
    cases hi : insert_one σ (swipeFields s t ty now) with
    | error e => exact ⟨h1, h2⟩
    | ok pr =>
      obtain ⟨i, σ1⟩ := pr
      obtain ⟨hno, hun⟩ := insert_preserves hi h1 h2
      have hcm := check_match_no_swiper hno s t
      by_cases hty : (ty == "like") = true
      · dsimp only
        rw [if_pos hty, hcm]
        exact ⟨hno, hun⟩
      · dsimp only
        rw [if_neg hty]
        exact ⟨hno, hun⟩

theorem runCalls_inv (calls : List Call) :
    ∀ σ : DB, noSwiperField σ → allUnmatched σ →
      noSwiperField (runCalls σ calls) ∧ allUnmatched (runCalls σ calls) := by
  induction calls with
  | nil => exact fun σ h1 h2 => ⟨h1, h2⟩
  | cons c rest ih =>
    intro σ h1 h2
    have h := create_swipe_stateAfter c.swiper c.target c.ty σ.nextId h1 h2
    simp only [runCalls]
    exact ih _ h.1 h.2

/-- C1: the claim says a mutual like `create_swipe(A, B, "like")` then
`create_swipe(B, A, "like")` produces exactly one MATCHED result and both
records end matched=true.  Evaluating the code at the failing input
A = `A24`, B = `B24` from the empty store: both calls succeed but return
`like_recorded` (no MATCHED result at all), both records are stored, and
both keep `matched = False` — the mirror lookup of `check_match` queries
`swiper_id`/`target_id` while `create_swipe` stores `user_id`/`job_id`. -/
theorem mutual_like_produces_no_match :
    resultOf (create_swipe A24 B24 "like" 0 emptyDB) = some .likeRecorded ∧
    resultOf (create_swipe B24 A24 "like" 1
        (stateAfter (create_swipe A24 B24 "like" 0 emptyDB) emptyDB)) =
      some .likeRecorded ∧
    (stateAfter (create_swipe B24 A24 "like" 1
          (stateAfter (create_swipe A24 B24 "like" 0 emptyDB) emptyDB))
        (stateAfter (create_swipe A24 B24 "like" 0 emptyDB) emptyDB)).docs.length
      = 2 ∧
    ((stateAfter (create_swipe B24 A24 "like" 1
          (stateAfter (create_swipe A24 B24 "like" 0 emptyDB) emptyDB))
        (stateAfter (create_swipe A24 B24 "like" 0 emptyDB) emptyDB)).docs.all
      fun d => d.getField "matched" == some (.boolean false)) = true := by
  decide

/-- C3: every record `create_swipe` inserts carries `matched = False`, and
across any sequence of `create_swipe` calls (including the `check_match`
evaluations they trigger) every stored record still has `matched = False`:
the mirror lookup and the `update_many` filter of `check_match` use
`swiper_id`/`target_id`, which no inserted record carries. -/
theorem created_records_matched_false_forever :
    (∀ (i now : Nat) (s t ty : String),
        (Doc.mk i (swipeFields s t ty now)).getField "matched" =
          some (.boolean false)) ∧
    ∀ calls : List Call,
      ((runCalls emptyDB calls).docs.all
        fun d => d.getField "matched" == some (.boolean false)) = true := by
  constructor
  · intro i now s t ty
    rfl
  · intro calls
    apply List.all_eq_true.mpr
    intro d hd
    have h := (runCalls_inv calls emptyDB noSwiperField_empty allUnmatched_empty).2 d hd
    simp [h]

/-! ## Interleaved execution of two concurrent like-swipes

Each request handler suspends at its storage operations (insert, mirror
find, update); a schedule decides which of the two in-flight requests
performs its next atomic storage operation. -/

/-- Program counter of one in-flight `create_swipe(_, _, "like")` request. -/
inductive TState where
  | atInsert
  | atFind
  | atUpdate (found : Doc)
  | finished (r : Except StorageError SwipeResult)

structure Thread where
  swiper : String
  target : String
  st : TState

/-- One atomic storage step of a like-swipe request, following
`create_swipe`: validate the target id and insert, then the mirror find of
`check_match`, then — only if the find returned a document — the
`update_many` that flips `matched`. -/
def stepThread (th : Thread) (σ : DB) : Thread × DB :=
  match th.st with
  | .atInsert =>
      match objectId? th.target with
      | .error e => (⟨th.swiper, th.target, .finished (.error e)⟩, σ)
      | .ok _ =>
          match insert_one σ (swipeFields th.swiper th.target "like" σ.nextId) with
          | .error e => (⟨th.swiper, th.target, .finished (.error e)⟩, σ)
          | .ok (_, σ1) => (⟨th.swiper, th.target, .atFind⟩, σ1)
  | .atFind =>
      match find_one (mirrorFilter th.swiper th.target) σ with
      | some d => (⟨th.swiper, th.target, .atUpdate d⟩, σ)
      | none => (⟨th.swiper, th.target, .finished (.ok .likeRecorded)⟩, σ)
  | .atUpdate d =>
      (⟨th.swiper, th.target, .finished (.ok (.matchFound (toString d.docId)))⟩,
       update_many_set_matched (pairOrFilter th.swiper th.target) σ)
  | .finished _ => (th, σ)

/-- The shared store plus the two in-flight requests. -/
structure Config where
  th1 : Thread
  th2 : Thread
  db : DB

/-- Let one of the two requests perform its next storage operation. -/
def stepConfig (first : Bool) (c : Config) : Config :=
  if first then
    ⟨(stepThread c.th1 c.db).1, c.th2, (stepThread c.th1 c.db).2⟩
  else
    ⟨c.th1, (stepThread c.th2 c.db).1, (stepThread c.th2 c.db).2⟩

/-- Run an arbitrary interleaving of the two requests. -/
def runSched (c : Config) : List Bool → Config
  | [] => c
  | b :: rest => runSched (stepConfig b c) rest

/-- Both sides of the pair submit their like concurrently, starting from
the empty store. -/
def initConfig (a b : String) : Config :=
  ⟨⟨a, b, .atInsert⟩, ⟨b, a, .atInsert⟩, emptyDB⟩

/-- `true` exactly on a request that finished having performed the MATCHED
transition. -/
def isMatchFoundState : TState → Bool
  | .finished (.ok (.matchFound _)) => true
  | _ => false

/-- Request states this code can actually reach: never at the update step,
never finished with a MATCHED result. -/
def okState : TState → Bool
  | .atUpdate _ => false
  | .finished (.ok (.matchFound _)) => false
  | _ => true

def ConfigInv (c : Config) : Prop :=
  noSwiperField c.db ∧ allUnmatched c.db ∧
    okState c.th1.st = true ∧ okState c.th2.st = true

theorem okState_no_matchFound (st : TState) (h : okState st = true) :
    isMatchFoundState st = false := by
  cases st with
  | atInsert => rfl
  | atFind => rfl
  | atUpdate d => simp [okState] at h
  | finished r =>
    cases r with
    | error e => rfl
    | ok sr =>
      cases sr with
      | matchFound m => simp [okState] at h
      | likeRecorded => rfl
      | swipeRecorded => rfl

theorem stepThread_inv {th : Thread} {σ : DB}
    (h1 : noSwiperField σ) (h2 : allUnmatched σ) (h3 : okState th.st = true) :
    noSwiperField (stepThread th σ).2 ∧ allUnmatched (stepThread th σ).2 ∧
      okState (stepThread th σ).1.st = true := by
  obtain ⟨s, t, st⟩ := th
  cases st with
  | atInsert =>
    dsimp only [stepThread]
    cases hv : objectId? t with
    | error e => exact ⟨h1, h2, rfl⟩
    | ok o =>
      dsimp only
      cases hi : insert_one σ (swipeFields s t "like" σ.nextId) with
      | error e => exact ⟨h1, h2, rfl⟩
      | ok pr =>
        obtain ⟨i, σ1⟩ := pr
        obtain ⟨hno, hun⟩ := insert_preserves hi h1 h2
        exact ⟨hno, hun, rfl⟩
  | atFind =>
    dsimp only [stepThread]
    rw [find_one_mirror_none h1]
    exact ⟨h1, h2, rfl⟩
  | atUpdate d => simp [okState] at h3
  | finished r => exact ⟨h1, h2, h3⟩

theorem stepConfig_inv {c : Config} (b : Bool) (h : ConfigInv c) :
    ConfigInv (stepConfig b c) := by
  obtain ⟨h1, h2, ht1, ht2⟩ := h
  cases b with
  | true =>
    obtain ⟨hno, hun, hok⟩ := stepThread_inv h1 h2 ht1
    exact ⟨hno, hun, hok, ht2⟩
  | false =>
    obtain ⟨hno, hun, hok⟩ := stepThread_inv h1 h2 ht2
    exact ⟨hno, hun, ht1, hok⟩

theorem runSched_inv (sched : List Bool) :
    ∀ c : Config, ConfigInv c → ConfigInv (runSched c sched) := by
  induction sched with
  | nil => exact fun c h => h
  | cons b rest ih =>
    intro c h
    simp only [runSched]
    exact ih _ (stepConfig_inv b h)

/-- C2: the claim says that under any interleaving of the two sides'
insert+evaluate sequences the pair undergoes exactly one transition to
matched=true.  In the code, under EVERY interleaving of the storage
operations of `create_swipe(A,B,"like")` and `create_swipe(B,A,"like")`,
zero transitions occur: no stored record is ever matched=true and neither
request ever reports MATCHED, because the mirror find never succeeds
(field-name mismatch between insert and lookup). -/
theorem concurrent_mutual_like_never_matches (a b : String) (sched : List Bool) :
    ((runSched (initConfig a b) sched).db.docs.all
        fun d => d.getField "matched" == some (.boolean false)) = true ∧
    isMatchFoundState (runSched (initConfig a b) sched).th1.st = false ∧
    isMatchFoundState (runSched (initConfig a b) sched).th2.st = false := by
  have h := runSched_inv sched (initConfig a b)
    ⟨noSwiperField_empty, allUnmatched_empty, rfl, rfl⟩
  refine ⟨List.all_eq_true.mpr fun d hd => ?_,
    okState_no_matchFound _ h.2.2.1, okState_no_matchFound _ h.2.2.2⟩
  simp [h.2.1 d hd]

/-! ## The query layer and unmatch on matched records

`get_user_matches` and `delete_match` query the `swiper_id`/`target_id`
schema.  To examine them, theorems below feed in the record shape those
filters look for: a matched pair of mirror records. -/

/-- A matched swipe record in the `swiper_id`/`target_id` schema that
`check_match`, `get_user_matches` and `delete_match` all query. -/
def matchedRec (i : Nat) (s t : String) (ts : Nat) : Doc :=
  ⟨i, [("swiper_id", .str s), ("target_id", .str t), ("swipe_type", .str "like"),
       ("swiped_at", .time ts), ("matched", .boolean true)]⟩

/-- C4: on a store holding the matched pair of mirror records for users
A ≠ B, `get_user_matches(A)` and `get_user_matches(B)` (default
limit 100, skip 0) each return exactly one entry for the match — the find
fetches both records of the pair, and the comprehension keeps only the
record whose `swiper_id` equals the queried user. -/
theorem get_user_matches_one_entry_per_side (A B : String) (i j ta tb n : Nat)
    (h : A ≠ B) :
    get_user_matches A 100 0 ⟨[matchedRec i A B ta, matchedRec j B A tb], n⟩ =
      [⟨toString i, [some (.str A), some (.str B)], some (.time ta)⟩] ∧
    get_user_matches B 100 0 ⟨[matchedRec i A B ta, matchedRec j B A tb], n⟩ =
      [⟨toString j, [some (.str B), some (.str A)], some (.time tb)⟩] := by
  constructor <;>
    simp [get_user_matches, applyLimit, gumFilter, condsHold, Doc.getField,
      matchedRec, h, Ne.symm h]

/-- Witness for C4 at A = "A", B = "B", ids 1 and 2. -/
theorem get_user_matches_one_entry_per_side_witness :
    get_user_matches "A" 100 0
        ⟨[matchedRec 1 "A" "B" 10, matchedRec 2 "B" "A" 11], 3⟩ =
      [⟨toString 1, [some (.str "A"), some (.str "B")], some (.time 10)⟩] ∧
    get_user_matches "B" 100 0
        ⟨[matchedRec 1 "A" "B" 10, matchedRec 2 "B" "A" 11], 3⟩ =
      [⟨toString 2, [some (.str "B"), some (.str "A")], some (.time 11)⟩] :=
  get_user_matches_one_entry_per_side "A" "B" 1 2 10 11 3 (by decide)

/-- C5 counterexample: on the matched pair for users "A" and "B",
`delete_match` from A's side succeeds and the match disappears from
`get_user_matches("A")` — but it still appears in `get_user_matches("B")`,
refuting "the match appears in neither": `delete_one` removes only the one
record identified by `match_id`, and the mirror record keeps matched=true. -/
theorem delete_match_mirror_still_visible :
    (delete_match "A" 1
        ⟨[matchedRec 1 "A" "B" 10, matchedRec 2 "B" "A" 11], 3⟩).1 = true ∧
    get_user_matches "A" 100 0
        (delete_match "A" 1
          ⟨[matchedRec 1 "A" "B" 10, matchedRec 2 "B" "A" 11], 3⟩).2 = [] ∧
    get_user_matches "B" 100 0
        (delete_match "A" 1
          ⟨[matchedRec 1 "A" "B" 10, matchedRec 2 "B" "A" 11], 3⟩).2 ≠ [] := by
  decide

/-- C5 amended: after `delete_match` succeeds for A's record of the
matched pair (the record whose `swiper_id` is A), the match no longer
appears in `get_user_matches(A)`, but it still appears — as one full
entry — in `get_user_matches(B)`: deleting one side dissolves the match
only for the deleting side's swiper, not for both parties. -/
theorem delete_match_dissolves_only_own_side (A B : String)
    (i j ta tb n : Nat) (h : A ≠ B) :
    (delete_match A i ⟨[matchedRec i A B ta, matchedRec j B A tb], n⟩).1 = true ∧
    get_user_matches A 100 0
        (delete_match A i ⟨[matchedRec i A B ta, matchedRec j B A tb], n⟩).2 = [] ∧
    get_user_matches B 100 0
        (delete_match A i ⟨[matchedRec i A B ta, matchedRec j B A tb], n⟩).2 =
      [⟨toString j, [some (.str B), some (.str A)], some (.time tb)⟩] := by
  simp [delete_match, delete_one, deleteFilter, eraseFirstP, condsHold,
    Doc.getField, matchedRec, get_user_matches, applyLimit, gumFilter, h, Ne.symm h]

/-- Witness for the amended C5 at A = "A", B = "B". -/
theorem delete_match_dissolves_only_own_side_witness :
    (delete_match "A" 5
        ⟨[matchedRec 5 "A" "B" 20, matchedRec 6 "B" "A" 21], 7⟩).1 = true ∧
    get_user_matches "A" 100 0
        (delete_match "A" 5
          ⟨[matchedRec 5 "A" "B" 20, matchedRec 6 "B" "A" 21], 7⟩).2 = [] ∧
    get_user_matches "B" 100 0
        (delete_match "A" 5
          ⟨[matchedRec 5 "A" "B" 20, matchedRec 6 "B" "A" 21], 7⟩).2 =
      [⟨toString 6, [some (.str "B"), some (.str "A")], some (.time 21)⟩] :=
  delete_match_dissolves_only_own_side "A" "B" 5 6 20 21 7 (by decide)

/-! ## Uniqueness of the (user_id, job_id) key -/

theorem find?_setKey_ne (fs : List (String × BVal)) (k k1 : String) (v : BVal)
    (h : (k == k1) = false) :
    (setKey fs k v).find? (fun p => p.1 == k1) = fs.find? (fun p => p.1 == k1) := by
  induction fs with
  | nil => simp [setKey, List.find?, h]
  | cons a rest ih =>
    obtain ⟨ka, va⟩ := a
    dsimp only [setKey]
    by_cases ha : (ka == k) = true
    · rw [if_pos ha]
      have hk : ka = k := by simpa using ha
      subst hk
      simp [List.find?, h]
    · rw [if_neg ha]
      by_cases hb : (ka == k1) = true
      · simp [List.find?, hb]
      · simp only [List.find?, Bool.not_eq_true] at hb ⊢
        rw [hb]
        simpa [hb] using ih

theorem getField_setField_ne (d : Doc) (k k1 : String) (v : BVal)
    (h : (k == k1) = false) :
    (d.setField k v).getField k1 = d.getField k1 := by
  unfold Doc.setField Doc.getField
  rw [find?_setKey_ne _ _ _ _ h]

/-- Setting `matched` never changes a document's unique-index key. -/
theorem swipeKey_update_doc (p : Doc → Bool) (d : Doc) :
    swipeKey (if p d then d.setField "matched" (.boolean true) else d) =
      swipeKey d := by
  split
  · unfold swipeKey
    rw [getField_setField_ne _ _ _ _ (by decide),
        getField_setField_ne _ _ _ _ (by decide)]
  · rfl

theorem countKey_update_many (p : Doc → Bool) (σ : DB)
    (key : Option BVal × Option BVal) :
    ((update_many_set_matched p σ).docs.countP fun d => swipeKey d == key) =
      σ.docs.countP fun d => swipeKey d == key := by
  unfold update_many_set_matched
  rw [List.countP_map]
  apply List.countP_congr
  intro d hd
  simp [Function.comp, swipeKey_update_doc]

theorem countKey_check_match (u1 u2 : String) (σ : DB)
    (key : Option BVal × Option BVal) :
    ((check_match u1 u2 σ).2.1.docs.countP fun d => swipeKey d == key) =
      σ.docs.countP fun d => swipeKey d == key := by
  unfold check_match
  cases find_one (mirrorFilter u1 u2) σ with
  | some d => exact countKey_update_many _ _ _
  | none => rfl

/-- C6: after a successful `create_swipe(A, B, _)`, the store holds exactly
one record keyed `(A, B)`, and a second `create_swipe(A, B, _)` — whatever
its swipe type or timestamp — fails with the unique-index duplicate-key
error before writing anything.  The rejection comes from the insert itself
(the unique `(user_id, job_id)` index of `_init_swipes`); `create_swipe`
performs no prior existence check. -/
theorem duplicate_swipe_rejected (s t ty ty2 : String) (now now2 : Nat)
    (σ : DB) (out : SwipeResult × DB × List Op)
    (h : create_swipe s t ty now σ = .ok out) :
    create_swipe s t ty2 now2 out.2.1 = .error .duplicateKey ∧
    (out.2.1.docs.countP
      fun d => swipeKey d == (some (.str s), some (.oid t))) = 1 := by
  unfold create_swipe at h
  cases hv : objectId? t with
  | error e => simp [hv] at h
  | ok o =>
    rw [hv] at h
    dsimp only at h
    cases hi : insert_one σ (swipeFields s t ty now) with
    | error e => simp [hi] at h
    | ok pr =>
      obtain ⟨i, σ1⟩ := pr
      rw [hi] at h
      dsimp only at h
      obtain ⟨hdocs, -, -, hany⟩ := insert_one_ok hi
      have hkey1 : (σ1.docs.countP
          fun d => swipeKey d == (some (.str s), some (.oid t))) = 1 := by
        rw [hdocs, List.countP_append]
        have h0 : (σ.docs.countP
            fun d => swipeKey d == (some (.str s), some (.oid t))) = 0 := by
          apply List.countP_eq_zero.mpr
          intro d hd
          have hne := List.any_eq_false.mp hany d hd
          simpa [swipeKey_swipeFields] using hne
        rw [h0]
        simp [swipeKey_swipeFields]
      have hcnt : (out.2.1.docs.countP
          fun d => swipeKey d == (some (.str s), some (.oid t))) = 1 := by
        by_cases hty : (ty == "like") = true
        · rw [if_pos hty] at h
          have hout : (check_match s t σ1).2.1 = out.2.1 := by
            have := Except.ok.inj h
            rw [← this]
          rw [← hout, countKey_check_match]
          exact hkey1
        · rw [if_neg hty] at h
          have hout : σ1 = out.2.1 := by
            have := Except.ok.inj h
            rw [← this]
          rw [← hout]
          exact hkey1
      refine ⟨?_, hcnt⟩
      unfold create_swipe
      rw [hv]
      dsimp only
      unfold insert_one
      rw [if_pos ?_]
      apply List.any_eq_true.mpr
      have hpos : 0 < out.2.1.docs.countP
          (fun d => swipeKey d == (some (.str s), some (.oid t))) := by
        rw [hcnt]
        exact Nat.zero_lt_one
      obtain ⟨d, hd, hpd⟩ := List.countP_pos_iff.mp hpos
      exact ⟨d, hd, by simpa [swipeKey_swipeFields] using hpd⟩

/-- Witness for C6: user "u1" likes job `A24` from the empty store; the
second submission is rejected with the duplicate-key error and the store
still holds exactly one (u1, A24) record. -/
theorem duplicate_swipe_rejected_witness :
    create_swipe "u1" A24 "like" 1
        (DB.mk [Doc.mk 0 (swipeFields "u1" A24 "like" 0)] 1) =
      .error .duplicateKey ∧
    ((DB.mk [Doc.mk 0 (swipeFields "u1" A24 "like" 0)] 1).docs.countP
      fun d => swipeKey d == (some (.str "u1"), some (.oid A24))) = 1 :=
  duplicate_swipe_rejected "u1" A24 "like" "like" 0 1 emptyDB
    (.likeRecorded, DB.mk [Doc.mk 0 (swipeFields "u1" A24 "like" 0)] 1,
     [.insertOp (swipeFields "u1" A24 "like" 0), .findOp]) (by rfl)

/-! ## Input validation (or the lack of it) in create_swipe -/

/-- C7 counterexample: a self-swipe `create_swipe(A, A, "like")` is NOT
rejected — the call succeeds with `like_recorded` and a record for (A, A)
is written.  `create_swipe` contains no self-swipe or empty-id check. -/
theorem self_swipe_accepted :
    resultOf (create_swipe A24 A24 "like" 0 emptyDB) = some .likeRecorded ∧
    (stateAfter (create_swipe A24 A24 "like" 0 emptyDB) emptyDB).docs.length = 1 := by
  decide

/-- C7 amended: `create_swipe` validates nothing but the ObjectId parse of
`target_id`: for every swiper id `s` — including `s = t` (self-swipe) and
`s = ""` (empty actor) — and every target that parses as an ObjectId, the
like is accepted and a record is inserted. -/
theorem create_swipe_accepts_any_ids (s t : String) (now : Nat)
    (h : isValidOid t = true) :
    create_swipe s t "like" now emptyDB =
      .ok (.likeRecorded, ⟨[⟨0, swipeFields s t "like" now⟩], 1⟩,
           [.insertOp (swipeFields s t "like" now), .findOp]) := by
  have hno : noSwiperField ⟨[⟨0, swipeFields s t "like" now⟩], 1⟩ := by
    intro d hd
    rw [List.mem_singleton.mp hd]
    rfl
  unfold create_swipe objectId?
  rw [if_pos h]
  dsimp only
  have hi : insert_one emptyDB (swipeFields s t "like" now) =
      .ok (0, ⟨[⟨0, swipeFields s t "like" now⟩], 1⟩) := rfl
  rw [hi]
  dsimp only
  rw [if_pos (by decide), check_match_no_swiper hno]

/-- Witness for the amended C7: the self-swipe `(A24, A24, "like")` is
accepted and stored. -/
theorem create_swipe_accepts_any_ids_witness :
    create_swipe A24 A24 "like" 5 emptyDB =
      .ok (.likeRecorded, ⟨[⟨0, swipeFields A24 A24 "like" 5⟩], 1⟩,
           [.insertOp (swipeFields A24 A24 "like" 5), .findOp]) :=
  create_swipe_accepts_any_ids A24 A24 5 (by decide)

/-! ## PASS swipes -/

/-- C8: a `create_swipe` with swipe type `"pass"` performs exactly one
storage operation — the insert — so `check_match` (whose trace always
begins with a find) is never invoked, and the call reports
`swipe_recorded`; moreover no record produced by any sequence of
`create_swipe` calls ever appears in any `get_user_matches` result (the
`matched: True` filter matches no stored record, pass records included). -/
theorem pass_swipe_never_matches :
    (∀ (s t : String) (now : Nat) (σ : DB) (out : SwipeResult × DB × List Op),
        create_swipe s t "pass" now σ = .ok out →
          out.2.2 = [.insertOp (swipeFields s t "pass" now)] ∧
          out.1 = .swipeRecorded) ∧
    ∀ (calls : List Call) (u : String) (lim sk : Nat),
      get_user_matches u lim sk (runCalls emptyDB calls) = [] := by
  constructor
  · intro s t now σ out h
    unfold create_swipe at h
    cases hv : objectId? t with
    | error e => simp [hv] at h
    | ok o =>
      rw [hv] at h
      dsimp only at h
      cases hi : insert_one σ (swipeFields s t "pass" now) with
      | error e => simp [hi] at h
      | ok pr =>
        obtain ⟨i, σ1⟩ := pr
        rw [hi] at h
        dsimp only at h
        rw [if_neg (by decide)] at h
        have := Except.ok.inj h
        rw [← this]
        exact ⟨rfl, rfl⟩
  · intro calls u lim sk
    have hinv := (runCalls_inv calls emptyDB noSwiperField_empty allUnmatched_empty).2
    unfold get_user_matches
    have hfilter : (runCalls emptyDB calls).docs.filter (gumFilter u) = [] := by
      apply List.filter_eq_nil_iff.mpr
      intro d hd
      simp [gumFilter, condsHold, hinv d hd]
    rw [hfilter]
    simp [applyLimit]

/-- Witness for C8: user "u1" passes on job `B24` from the empty store. -/
theorem pass_swipe_never_matches_witness :
    ((SwipeResult.swipeRecorded,
       DB.mk [Doc.mk 0 (swipeFields "u1" B24 "pass" 0)] 1,
       [Op.insertOp (swipeFields "u1" B24 "pass" 0)]) :
        SwipeResult × DB × List Op).2.2 =
      [Op.insertOp (swipeFields "u1" B24 "pass" 0)] ∧
    ((SwipeResult.swipeRecorded,
       DB.mk [Doc.mk 0 (swipeFields "u1" B24 "pass" 0)] 1,
       [Op.insertOp (swipeFields "u1" B24 "pass" 0)]) :
        SwipeResult × DB × List Op).1 = .swipeRecorded ∧
    get_user_matches "u1" 100 0 (runCalls emptyDB [⟨"u1", B24, "pass"⟩]) = [] :=
  ⟨(pass_swipe_never_matches.1 "u1" B24 0 emptyDB
      (.swipeRecorded, DB.mk [Doc.mk 0 (swipeFields "u1" B24 "pass" 0)] 1,
       [.insertOp (swipeFields "u1" B24 "pass" 0)]) rfl).1,
   (pass_swipe_never_matches.1 "u1" B24 0 emptyDB
      (.swipeRecorded, DB.mk [Doc.mk 0 (swipeFields "u1" B24 "pass" 0)] 1,
       [.insertOp (swipeFields "u1" B24 "pass" 0)]) rfl).2,
   pass_swipe_never_matches.2 [⟨"u1", B24, "pass"⟩] "u1" 100 0⟩

/-! ## delete_match authorization and no-op-on-absence semantics -/

/-- The authorization condition of `delete_match`'s filter, as a
proposition: the document is the one identified by `match_id`, the caller
is its swiper or its target, and it is matched. -/
def authorizedFor (u : String) (m : Nat) (d : Doc) : Prop :=
  d.docId = m ∧
    (d.getField "swiper_id" = some (.str u) ∨
      d.getField "target_id" = some (.str u)) ∧
    d.getField "matched" = some (.boolean true)

theorem deleteFilter_iff (u : String) (m : Nat) (d : Doc) :
    deleteFilter u m d = true ↔ authorizedFor u m d := by
  simp [deleteFilter, condsHold, authorizedFor, and_assoc]

theorem mem_eraseFirstP {p : Doc → Bool} {l : List Doc} {d : Doc}
    (hd : d ∈ l) (hp : p d = false) : d ∈ eraseFirstP p l := by
  induction l with
  | nil => cases hd
  | cons a rest ih =>
    dsimp only [eraseFirstP]
    by_cases ha : p a = true
    · rw [if_pos ha]
      rcases List.mem_cons.mp hd with hda | hda
      · rw [hda, ha] at hp
        cases hp
      · exact hda
    · rw [if_neg ha]
      rcases List.mem_cons.mp hd with hda | hda
      · rw [hda]
        exact List.mem_cons_self _ _
      · exact List.mem_cons_of_mem _ (ih hda)

theorem eraseFirstP_of_none {p : Doc → Bool} {l : List Doc}
    (h : ∀ d ∈ l, p d = false) : eraseFirstP p l = l := by
  induction l with
  | nil => rfl
  | cons a rest ih =>
    dsimp only [eraseFirstP]
    rw [if_neg (by simp [h a (List.mem_cons_self a rest)]),
        ih (fun d hd => h d (List.mem_cons_of_mem a hd))]

theorem eraseFirstP_length (p : Doc → Bool) (l : List Doc) :
    l.length ≤ (eraseFirstP p l).length + 1 := by
  induction l with
  | nil => simp [eraseFirstP]
  | cons a rest ih =>
    dsimp only [eraseFirstP]
    split
    · simp
    · simpa using Nat.succ_le_succ ih

/-- C9: `delete_match(user_id, match_id)` deletes the record identified by
`match_id` only under the authorization condition (the caller is the
record's swiper or target AND it is matched): when no stored document is
authorized, it returns false — not an error — and the store is unchanged;
any unauthorized document survives; and at most one document is ever
deleted.  When an authorized document exists, it reports true. -/
theorem delete_match_semantics (u : String) (m : Nat) (σ : DB) :
    ((∀ d ∈ σ.docs, ¬ authorizedFor u m d) → delete_match u m σ = (false, σ)) ∧
    (∀ d ∈ σ.docs, ¬ authorizedFor u m d → d ∈ (delete_match u m σ).2.docs) ∧
    ((∃ d ∈ σ.docs, authorizedFor u m d) → (delete_match u m σ).1 = true) ∧
    σ.docs.length ≤ (delete_match u m σ).2.docs.length + 1 := by
  refine ⟨?_, ?_, ?_, ?_⟩
  · intro h
    have hall : ∀ d ∈ σ.docs, deleteFilter u m d = false := fun d hd =>
      Bool.eq_false_iff.mpr fun hc => h d hd ((deleteFilter_iff u m d).mp hc)
    unfold delete_match delete_one
    rw [List.any_eq_false.mpr (fun d hd => by simp [hall d hd]),
        eraseFirstP_of_none hall]
  · intro d hd hna
    exact mem_eraseFirstP hd
      (Bool.eq_false_iff.mpr fun hc => hna ((deleteFilter_iff u m d).mp hc))
  · rintro ⟨d, hd, hauth⟩
    exact List.any_eq_true.mpr ⟨d, hd, (deleteFilter_iff u m d).mpr hauth⟩
  · exact eraseFirstP_length _ _

/-- Witness for C9: on the empty store every branch is concrete — the call
returns false and deletes nothing. -/
theorem delete_match_semantics_witness :
    delete_match "u1" 5 emptyDB = (false, emptyDB) :=
  (delete_match_semantics "u1" 5 emptyDB).1 (fun d hd => by simp [emptyDB] at hd)

/-! ## ObjectId validation of target_id -/

/-- C10: when `target_id` is not a 24-hex-digit ObjectId string,
`create_swipe` raises at the `ObjectId(target_id)` conversion — before the
insert — so the call errors and the store is untouched, even though the
spec treats `target_id` as an opaque string validated only for
non-emptiness. -/
theorem invalid_objectid_raises (s t ty : String) (now : Nat) (σ : DB)
    (h : isValidOid t = false) :
    create_swipe s t ty now σ = .error .invalidId ∧
    stateAfter (create_swipe s t ty now σ) σ = σ := by
  have hv : objectId? t = .error .invalidId := by
    unfold objectId?
    rw [if_neg (by simp [h])]
  have h1 : create_swipe s t ty now σ = .error .invalidId := by
    unfold create_swipe
    rw [hv]
  refine ⟨h1, ?_⟩
  rw [h1]
  rfl

/-- Witness for C10: a target id that is not 24 hex digits. -/
theorem invalid_objectid_raises_witness :
    create_swipe "u1" "not-a-valid-objectid" "like" 0 emptyDB =
      .error .invalidId ∧
    stateAfter (create_swipe "u1" "not-a-valid-objectid" "like" 0 emptyDB)
      emptyDB = emptyDB :=
  invalid_objectid_raises "u1" "not-a-valid-objectid" "like" 0 emptyDB (by decide)

end FastapiServer
